import Mathlib

/-!
Verification of `pautobot`'s local resource provisioning subsystem
(`src/pautobot/utils.py`): the streaming downloader `download_file`, the
model provisioner `download_model` with its registry `DEFAULT_MODEL_URLS`,
and the frontend deployer `extract_frontend_dist`.

The filesystem is modelled as a pair of maps: file contents indexed by
path, and a directory-existence predicate.  Paths are lists of components
(the string between two separators), so `parent` is `dropLast` and
"the path q lies inside the directory d" is `d.isPrefixOf q`.
HTTP is modelled by a response record (status, optional content-length
header, list of body chunks as delivered by `iter_content`) together with
a `FetchOutcome` saying whether the call runs to completion, is
interrupted by an exception after `k` chunks, or fails at the request
itself.  Process exit (`exit(1)`) is recorded as an `exitCode` field of
the result rather than actually terminating.
-/

namespace Pautobot

/-- A filesystem path, as its list of components. -/
abbrev FilePath := List String

/-- File contents: a sequence of bytes. -/
abbrev Bytes := List Nat

/-- Filesystem state: file contents by path, plus which directories exist. -/
structure FS where
  files : FilePath → Option Bytes
  dirs : FilePath → Bool

/-- os.path.exists: true if a file or a directory is present at the path. -/
def FS.pathExists (fs : FS) (p : FilePath) : Bool :=
  (fs.files p).isSome || fs.dirs p

/-- Create or overwrite the file at `p` with contents `c`. -/
def FS.writeFile (fs : FS) (p : FilePath) (c : Bytes) : FS :=
  { fs with files := fun q => if q = p then some c else fs.files q }

/-- Remove the file at `p` (no-op on directories). -/
def FS.removeFile (fs : FS) (p : FilePath) : FS :=
  { fs with files := fun q => if q = p then none else fs.files q }

/-- pathlib.Path(p).mkdir(parents=True, exist_ok=True): create the
directory `p` and every missing ancestor. -/
def FS.mkdirP (fs : FS) (p : FilePath) : FS :=
  { fs with dirs := fun q => if q.isPrefixOf p then true else fs.dirs q }

/-- shutil.rmtree(d, ignore_errors=True): remove every file strictly below
`d` and every directory at or below `d`.  A regular file sitting exactly
at `d` is left in place (rmtree on a non-directory raises, and the error
is suppressed). -/
def FS.rmtree (fs : FS) (d : FilePath) : FS :=
  { files := fun q => if d.isPrefixOf q ∧ q ≠ d then none else fs.files q,
    dirs := fun q => if d.isPrefixOf q then false else fs.dirs q }

/-- shutil.copytree(src, dst): create `dst` and replicate the whole tree
rooted at `src` below `dst` (files and subdirectories). -/
def FS.copytree (fs : FS) (src dst : FilePath) : FS :=
  { files := fun q =>
      if dst.isPrefixOf q ∧ q ≠ dst then fs.files (src ++ q.drop dst.length)
      else fs.files q,
    dirs := fun q =>
      if dst.isPrefixOf q then
        if q = dst then true else fs.dirs (src ++ q.drop dst.length)
      else fs.dirs q }

/-- shutil.move(src, dst): rename the file at `src` to `dst`. -/
def FS.moveFile (fs : FS) (src dst : FilePath) : FS :=
  match fs.files src with
  | some c => (fs.removeFile src).writeFile dst c
  | none => fs

/-- The chunk loop of `download_file`: open the file for writing
(truncating it), then append each chunk in order. -/
def FS.writeChunks (fs : FS) (p : FilePath) (chunks : List Bytes) : FS :=
  chunks.foldl (fun s c => s.writeFile p (((s.files p).getD []) ++ c))
    (fs.writeFile p [])

/-- A streaming HTTP response: status code, the optional content-length
header, and the body as the chunk sequence `iter_content` yields. -/
structure HttpResponse where
  status : Nat
  contentLength : Option Nat
  chunks : List Bytes

/-- How a single fetch attempt unfolds: it runs to completion, or an
exception interrupts the chunk loop after `k` chunks were written, or
`requests.get` itself raises. -/
inductive FetchOutcome where
  | complete
  | interruptedAfter (k : Nat)
  | requestRaises

/-- Running totals: `cumFrom acc [a, b] = [acc + a, acc + a + b]`. -/
def cumFrom (acc : Nat) : List Nat → List Nat
  | [] => []
  | x :: xs => (acc + x) :: cumFrom (acc + x) xs

/-- The cumulative byte counts the progress bar holds after each
`progress_bar.update(len(chunk))` call. -/
def cumSums (l : List Nat) : List Nat := cumFrom 0 l

/-- Result of one `download_file` call: the filesystem afterwards, the
cumulative progress reports, the log lines, and whether an exception
escaped the call (`raised = true` models a propagating exception). -/
structure DLResult where
  fs : FS
  progress : List Nat
  log : List String
  raised : Bool

/-- download_file(url, file_path) from src/pautobot/utils.py.
Creates the named temporary file (delete=False), creates the missing
parent directories of `file_path`, issues the GET request; on status 200
streams the body chunk-by-chunk into the temporary file, reporting
cumulative progress, then moves the temporary file onto `file_path`;
on any other status it only logs and returns.  `tmp_name` is the path
the tempfile module picked; `oc` says how far the attempt gets. -/
def download_file (url : String) (file_path tmp_name : FilePath)
    (resp : HttpResponse) (oc : FetchOutcome) (fs : FS) : DLResult :=
  let fs1 := fs.writeFile tmp_name []
  let fs2 := fs1.mkdirP file_path.dropLast
  match oc with
  | .requestRaises =>
      { fs := fs2, progress := [], log := [], raised := true }
  | .complete =>
      if resp.status = 200 then
        let fs3 := fs2.writeChunks tmp_name resp.chunks
        let fs4 := fs3.moveFile tmp_name file_path
        { fs := fs4,
          progress := cumSums (resp.chunks.map List.length),
          log := ["File downloaded successfully."],
          raised := false }
      else
        { fs := fs2, progress := [],
          log := ["Failed to download file."], raised := false }
  | .interruptedAfter k =>
      if resp.status = 200 then
        { fs := fs2.writeChunks tmp_name (resp.chunks.take k),
          progress := cumSums ((resp.chunks.take k).map List.length),
          log := [], raised := true }
      else
        -- with a non-200 status the chunk loop never runs, so nothing
        -- can interrupt it: same behaviour as the complete non-200 path
        { fs := fs2, progress := [],
          log := ["Failed to download file."], raised := false }

/-- DEFAULT_MODEL_URLS from src/pautobot/utils.py, in source order. -/
def DEFAULT_MODEL_URLS : List (String × String) :=
  [("ggml-gpt4all-j", "https://gpt4all.io/models/ggml-gpt4all-j.bin"),
   ("ggml-gpt4all-j-v1.1-breezy", "https://gpt4all.io/models/ggml-gpt4all-j-v1.1-breezy.bin"),
   ("ggml-gpt4all-j-v1.2-jazzy", "https://gpt4all.io/models/ggml-gpt4all-j-v1.2-jazzy.bin"),
   ("ggml-gpt4all-j-v1.3-groovy", "https://gpt4all.io/models/ggml-gpt4all-j-v1.3-groovy.bin"),
   ("ggml-gpt4all-l13b-snoozy", "https://gpt4all.io/models/ggml-gpt4all-l13b-snoozy.bin"),
   ("ggml-mpt-7b-base", "https://gpt4all.io/models/ggml-mpt-7b-base.bin"),
   ("ggml-mpt-7b-instruct", "https://gpt4all.io/models/ggml-mpt-7b-instruct.bin"),
   ("ggml-nous-gpt4-vicuna-13b", "https://gpt4all.io/models/ggml-nous-gpt4-vicuna-13b.bin"),
   ("ggml-replit-code-v1-3b", "https://huggingface.co/nomic-ai/ggml-replit-code-v1-3b/resolve/main/ggml-replit-code-v1-3b.bin"),
   ("ggml-stable-vicuna-13B.q4_2", "https://gpt4all.io/models/ggml-stable-vicuna-13B.q4_2.bin"),
   ("ggml-v3-13b-hermes-q5_1", "https://huggingface.co/eachadea/ggml-nous-hermes-13b/resolve/main/ggml-v3-13b-hermes-q5_1.bin"),
   ("ggml-vicuna-13b-1.1-q4_2", "https://gpt4all.io/models/ggml-vicuna-13b-1.1-q4_2.bin"),
   ("ggml-vicuna-7b-1.1-q4_2", "https://gpt4all.io/models/ggml-vicuna-7b-1.1-q4_2.bin"),
   ("ggml-wizard-13b-uncensored", "https://gpt4all.io/models/ggml-wizard-13b-uncensored.bin"),
   ("ggml-wizardLM-7B.q4_2", "https://gpt4all.io/models/ggml-wizardLM-7B.q4_2.bin")]

/-- MODEL_URL = DEFAULT_MODEL_URLS["ggml-replit-code-v1-3b"]: the one
URL `download_model` ever uses, whatever `model_type` says. -/
def MODEL_URL : String :=
  (DEFAULT_MODEL_URLS.lookup "ggml-replit-code-v1-3b").getD ""

/-- Result of one `download_model` call: filesystem afterwards, the URLs
actually requested over the network, the exit code when the process
terminated via `exit(1)` (`none` = returned normally), and log lines. -/
structure ModelResult where
  fs : FS
  requests : List String
  exitCode : Option Nat
  log : List String

/-- download_model(model_type, model_path) from src/pautobot/utils.py.
If `model_path` already exists it does nothing; otherwise it downloads
MODEL_URL via `download_file`, and on any exception logs the error and
calls `exit(1)`.  `net` gives, per URL, the response and how the fetch
attempt unfolds; `tmp_name` is the temporary-file path used inside. -/
def download_model (model_type : String) (model_path tmp_name : FilePath)
    (net : String → HttpResponse × FetchOutcome) (fs : FS) : ModelResult :=
  if fs.pathExists model_path then
    { fs := fs, requests := [], exitCode := none, log := [] }
  else
    let ro := net MODEL_URL
    let d := download_file MODEL_URL model_path tmp_name ro.1 ro.2 fs
    if d.raised then
      { fs := d.fs, requests := [ MODEL_URL ], exitCode := some 1,
        log := ["Downloading model...", "Error while downloading model"] }
    else
      { fs := d.fs, requests := [ MODEL_URL ], exitCode := none,
        log := ["Downloading model..."] ++ d.log ++ ["Model downloaded!"] }

/-- The placeholder page written in degraded mode. -/
def placeholderText : String :=
  "<b>frontend-dist</b> not found in package pautobot. Please run: <code>bash build_frontend.sh</code>"

/-- The placeholder page's bytes. -/
def placeholderBytes : Bytes := placeholderText.toList.map Char.toNat

/-- extract_frontend_dist(static_folder) from src/pautobot/utils.py.
`dist_folder` is the install-local bundle location that
pkg_resources.resource_filename resolves to.  If the target exists it is
deleted (best effort); if the bundle exists it is copied to the target;
if the target still does not exist, a placeholder index.html is
written into a freshly created target directory. -/
def extract_frontend_dist (static_folder dist_folder : FilePath)
    (fs : FS) : FS :=
  let fs1 := if fs.pathExists static_folder
    then fs.rmtree static_folder else fs
  let fs2 := if fs1.pathExists dist_folder
    then (fs1.mkdirP static_folder.dropLast).copytree dist_folder static_folder
    else fs1
  if fs2.pathExists static_folder then fs2
  else
    let fs3 := fs2.mkdirP static_folder
    fs3.writeFile (static_folder ++ ["index.html"]) placeholderBytes

/-! Basic lemmas about the filesystem operations. -/

@[simp] theorem FS.writeFile_files (fs : FS) (p : FilePath) (c : Bytes)
    (q : FilePath) :
    (fs.writeFile p c).files q = if q = p then some c else fs.files q := rfl

@[simp] theorem FS.writeFile_dirs (fs : FS) (p : FilePath) (c : Bytes) :
    (fs.writeFile p c).dirs = fs.dirs := rfl

@[simp] theorem FS.removeFile_files (fs : FS) (p q : FilePath) :
    (fs.removeFile p).files q = if q = p then none else fs.files q := rfl

@[simp] theorem FS.removeFile_dirs (fs : FS) (p : FilePath) :
    (fs.removeFile p).dirs = fs.dirs := rfl

@[simp] theorem FS.mkdirP_files (fs : FS) (p : FilePath) :
    (fs.mkdirP p).files = fs.files := rfl

@[simp] theorem FS.mkdirP_dirs (fs : FS) (p q : FilePath) :
    (fs.mkdirP p).dirs q = if q.isPrefixOf p then true else fs.dirs q := rfl

@[simp] theorem FS.rmtree_files (fs : FS) (d q : FilePath) :
    (fs.rmtree d).files q
      = if d.isPrefixOf q ∧ q ≠ d then none else fs.files q := rfl

@[simp] theorem FS.rmtree_dirs (fs : FS) (d q : FilePath) :
    (fs.rmtree d).dirs q = if d.isPrefixOf q then false else fs.dirs q := rfl

@[simp] theorem FS.copytree_files (fs : FS) (src dst q : FilePath) :
    (fs.copytree src dst).files q
      = if dst.isPrefixOf q ∧ q ≠ dst then fs.files (src ++ q.drop dst.length)
        else fs.files q := rfl

@[simp] theorem FS.copytree_dirs (fs : FS) (src dst q : FilePath) :
    (fs.copytree src dst).dirs q
      = if dst.isPrefixOf q then
          if q = dst then true else fs.dirs (src ++ q.drop dst.length)
        else fs.dirs q := rfl

theorem foldl_write_dirs (p : FilePath) :
    ∀ (l : List Bytes) (s : FS),
      (l.foldl (fun s c => s.writeFile p (((s.files p).getD []) ++ c)) s).dirs
        = s.dirs
  | [], _ => rfl
  | c :: l, s => by
      rw [List.foldl_cons, foldl_write_dirs p l]
      rfl

@[simp] theorem FS.writeChunks_dirs (fs : FS) (p : FilePath)
    (l : List Bytes) : (fs.writeChunks p l).dirs = fs.dirs :=
  foldl_write_dirs p l _

theorem foldl_write_files (p q : FilePath) :
    ∀ (l : List Bytes) (s : FS) (acc : Bytes), s.files p = some acc →
      (l.foldl (fun s c => s.writeFile p (((s.files p).getD []) ++ c))
          s).files q
        = if q = p then some (acc ++ l.flatten) else s.files q
  | [], s, acc, h => by
      simp only [List.foldl_nil, List.flatten_nil, List.append_nil]
      split
      · next he => rw [he, h]
      · rfl
  | c :: l, s, acc, h => by
      rw [List.foldl_cons,
        foldl_write_files p q l (s.writeFile p (((s.files p).getD []) ++ c))
          (acc ++ c) (by simp [h])]
      by_cases hq : q = p <;> simp [h, hq, List.append_assoc]

@[simp] theorem FS.writeChunks_files (fs : FS) (p : FilePath)
    (l : List Bytes) (q : FilePath) :
    (fs.writeChunks p l).files q
      = if q = p then some l.flatten else fs.files q := by
  unfold FS.writeChunks
  rw [foldl_write_files p q l (fs.writeFile p []) [] (by simp)]
  by_cases hq : q = p <;> simp [hq]

/-! Lemmas about path prefixes. -/

theorem isPrefixOf_self (l : FilePath) : l.isPrefixOf l = true := by
  simp [List.isPrefixOf_iff_prefix]

theorem isPrefixOf_append (l rest : FilePath) :
    l.isPrefixOf (l ++ rest) = true := by
  simp [List.isPrefixOf_iff_prefix]

theorem not_isPrefixOf_dropLast (l : FilePath) (h : l ≠ []) :
    l.isPrefixOf l.dropLast = false := by
  by_contra hc
  have hp : l <+: l.dropLast := by
    rw [← List.isPrefixOf_iff_prefix]
    exact Bool.of_not_eq_false hc
  have hlen := hp.length_le
  rw [List.length_dropLast] at hlen
  have : 0 < l.length := List.length_pos.mpr h
  omega

theorem not_isPrefixOf_append_of_incomparable (a b rest : FilePath)
    (h1 : a.isPrefixOf b = false) (h2 : b.isPrefixOf a = false) :
    a.isPrefixOf (b ++ rest) = false := by
  by_contra hc
  have hp : a <+: b ++ rest := by
    rw [← List.isPrefixOf_iff_prefix]
    exact Bool.of_not_eq_false hc
  have hb : b <+: b ++ rest := List.prefix_append b rest
  rcases List.prefix_or_prefix_of_prefix hp hb with h | h
  · rw [← List.isPrefixOf_iff_prefix] at h
    rw [h] at h1
    simp at h1
  · rw [← List.isPrefixOf_iff_prefix] at h
    rw [h] at h2
    simp at h2

theorem append_ne_self (l rest : FilePath) (h : rest ≠ []) :
    l ++ rest ≠ l := by
  intro he
  have hl := congrArg List.length he
  rw [List.length_append] at hl
  have : rest.length = 0 := by omega
  exact h (List.length_eq_zero.mp this)

/-! Concrete fixtures used to instantiate the theorems. -/

/-- An empty filesystem. -/
def fs0 : FS := { files := fun _ => none, dirs := fun _ => false }

/-- A concrete destination path for the model file. -/
def mpath : FilePath := ["home", "models", "model.bin"]

/-- A concrete temporary-file path. -/
def tpath : FilePath := ["tmp", "tmpabc123"]

/-- A 200 response with a declared size of 5 bytes in two chunks. -/
def respOk : HttpResponse :=
  { status := 200, contentLength := some 5, chunks := [[1, 2], [3, 4, 5]] }

/-- A 404 response. -/
def resp404 : HttpResponse :=
  { status := 404, contentLength := none, chunks := [] }

/-- A network where every request succeeds with `respOk`. -/
def netOk : String → HttpResponse × FetchOutcome :=
  fun _ => (respOk, .complete)

/-- A network where every request gets a 404. -/
def net404 : String → HttpResponse × FetchOutcome :=
  fun _ => (resp404, .complete)

/-- A network where every request raises. -/
def netRaise : String → HttpResponse × FetchOutcome :=
  fun _ => (respOk, .requestRaises)

/-! The claims. -/

/-- C9: `download_model` never looks at its `model_type` argument: any two
model types, with everything else equal, produce identical results —
the same (hardwired) URL is requested and all effects coincide. -/
theorem c9_model_type_irrelevant (t1 t2 : String)
    (model_path tmp_name : FilePath)
    (net : String → HttpResponse × FetchOutcome) (fs : FS) :
    download_model t1 model_path tmp_name net fs
      = download_model t2 model_path tmp_name net fs := rfl

/-- C4: when the destination already exists, `download_model` returns at
once: zero network requests, the filesystem (hence the existing file)
unchanged, no exit and no log; moreover after a successful first call on an
absent destination, a second call performs zero network requests. -/
theorem c4_idempotent (t : String) (model_path tmp_name : FilePath)
    (net : String → HttpResponse × FetchOutcome) (fs fsA : FS)
    (resp : HttpResponse)
    (hex : fs.pathExists model_path = true)
    (habs : fsA.pathExists model_path = false)
    (hnet : net MODEL_URL = (resp, .complete))
    (h200 : resp.status = 200) :
    (download_model t model_path tmp_name net fs
        = { fs := fs, requests := [], exitCode := none, log := [] })
    ∧ (download_model t model_path tmp_name net
        (download_model t model_path tmp_name net fsA).fs).requests = [] := by
  constructor
  · simp [download_model, hex]
  · have h' := habs
    simp only [FS.pathExists, Bool.or_eq_false_iff] at h'
    obtain ⟨hf, hd⟩ := h'
    simp [download_model, download_file, FS.moveFile, FS.pathExists,
      hnet, h200, hf, hd]

/-- Witness for C4: on a filesystem already holding the model file the call
is a no-op with no requests, and a second call after a successful download
from the empty filesystem makes no requests either. -/
theorem c4_idempotent_witness :
    (fs0.writeFile mpath [7]).pathExists mpath = true
    ∧ fs0.pathExists mpath = false
    ∧ netOk MODEL_URL = (respOk, .complete)
    ∧ respOk.status = 200
    ∧ ((download_model "m" mpath tpath netOk (fs0.writeFile mpath [7])
        = { fs := fs0.writeFile mpath [7], requests := [], exitCode := none,
            log := [] })
      ∧ (download_model "m" mpath tpath netOk
          (download_model "m" mpath tpath netOk fs0).fs).requests = []) :=
  ⟨by decide, by decide, rfl, by decide,
    c4_idempotent "m" mpath tpath netOk (fs0.writeFile mpath [7]) fs0 respOk
      (by decide) (by decide) rfl (by decide)⟩

/-- C2 counterexample: "ggml-gpt4all-j" is a configured Registry key, yet
`download_model` requests the hardwired replit URL for it instead of the
configured URL; and an unconfigured name does not fail with any
UnknownResource error — it performs a download and completes normally. -/
theorem c2_counterexample :
    (download_model "ggml-gpt4all-j" mpath tpath netOk fs0).requests
        = [ MODEL_URL ]
    ∧ DEFAULT_MODEL_URLS.lookup "ggml-gpt4all-j"
        = some "https://gpt4all.io/models/ggml-gpt4all-j.bin"
    ∧ MODEL_URL ≠ "https://gpt4all.io/models/ggml-gpt4all-j.bin"
    ∧ (download_model "this-name-is-not-configured" mpath tpath netOk
        fs0).exitCode = none
    ∧ DEFAULT_MODEL_URLS.lookup "this-name-is-not-configured" = none := by
  refine ⟨?_, ?_, ?_, ?_, ?_⟩ <;> decide

/-- C2 (amended): `download_model` ignores the name it is given: for every
`model_type`, configured or not, the single network request made when the
destination is absent is for `MODEL_URL` =
DEFAULT_MODEL_URLS["ggml-replit-code-v1-3b"]; no name resolution happens,
so an absent name is silently defaulted rather than failing. -/
theorem c2_amended_resolution (t : String) (model_path tmp_name : FilePath)
    (net : String → HttpResponse × FetchOutcome) (fs : FS)
    (habs : fs.pathExists model_path = false) :
    (download_model t model_path tmp_name net fs).requests
      = [ MODEL_URL ] := by
  simp only [download_model, habs, Bool.false_eq_true, if_false]
  split <;> rfl

/-- Witness for C2 (amended), at an unconfigured name on the empty
filesystem. -/
theorem c2_amended_resolution_witness :
    fs0.pathExists mpath = false
    ∧ (download_model "this-name-is-not-configured" mpath tpath netOk
        fs0).requests = [ MODEL_URL ] :=
  ⟨by decide,
    c2_amended_resolution "this-name-is-not-configured" mpath tpath netOk fs0
      (by decide)⟩

/-- C3 counterexample: on a 404 response `download_file` raises nothing and
`download_model` completes with no process exit — against the claimed
DownloadFailed failure with a non-zero exit code. -/
theorem c3_counterexample :
    (download_file MODEL_URL mpath tpath resp404 .complete fs0).raised = false
    ∧ (download_model "m" mpath tpath net404 fs0).exitCode = none := by
  exact ⟨by decide, by decide⟩

/-- C3 (amended): a non-success status still means a single attempt with no
retry, but the failure is only logged: `download_file` logs "Failed to
download file." and returns normally, no exception is raised, and the
process does not exit — `download_model` even logs "Model downloaded!". -/
theorem c3_amended_non200 (url t : String) (file_path tmp_name : FilePath)
    (resp : HttpResponse) (fs : FS)
    (net : String → HttpResponse × FetchOutcome)
    (hst : resp.status ≠ 200)
    (habs : fs.pathExists file_path = false)
    (hnet : net MODEL_URL = (resp, .complete)) :
    (download_file url file_path tmp_name resp .complete fs).raised = false
    ∧ (download_file url file_path tmp_name resp .complete fs).log
        = ["Failed to download file."]
    ∧ (download_model t file_path tmp_name net fs).requests = [ MODEL_URL ]
    ∧ (download_model t file_path tmp_name net fs).exitCode = none
    ∧ (download_model t file_path tmp_name net fs).log
        = ["Downloading model...", "Failed to download file.",
           "Model downloaded!"] := by
  simp [download_model, download_file, habs, hnet, hst]

/-- Witness for C3 (amended) at a concrete 404 response. -/
theorem c3_amended_non200_witness :
    resp404.status ≠ 200
    ∧ fs0.pathExists mpath = false
    ∧ ((download_file "u" mpath tpath resp404 .complete fs0).raised = false
      ∧ (download_file "u" mpath tpath resp404 .complete fs0).log
          = ["Failed to download file."]
      ∧ (download_model "m" mpath tpath net404 fs0).requests = [ MODEL_URL ]
      ∧ (download_model "m" mpath tpath net404 fs0).exitCode = none
      ∧ (download_model "m" mpath tpath net404 fs0).log
          = ["Downloading model...", "Failed to download file.",
             "Model downloaded!"]) :=
  ⟨by decide, by decide,
    c3_amended_non200 "u" "m" mpath tpath resp404 fs0 net404 (by decide)
      (by decide) rfl⟩

/-- C7: whenever the `download_file` step raises an exception (request
error or mid-stream interruption), `download_model` logs the error and the
process terminates with exit code 1 — no partial success, no retry (still
the one request). -/
theorem c7_exception_fatal (t : String) (model_path tmp_name : FilePath)
    (net : String → HttpResponse × FetchOutcome) (fs : FS)
    (habs : fs.pathExists model_path = false)
    (hraise : (download_file MODEL_URL model_path tmp_name (net MODEL_URL).1
        (net MODEL_URL).2 fs).raised = true) :
    (download_model t model_path tmp_name net fs).exitCode = some 1
    ∧ (download_model t model_path tmp_name net fs).log
        = ["Downloading model...", "Error while downloading model"]
    ∧ (download_model t model_path tmp_name net fs).requests
        = [ MODEL_URL ] := by
  simp [download_model, habs, hraise]

/-- Witness for C7: the request itself raising on the empty filesystem. -/
theorem c7_exception_fatal_witness :
    fs0.pathExists mpath = false
    ∧ (download_file MODEL_URL mpath tpath (netRaise MODEL_URL).1
        (netRaise MODEL_URL).2 fs0).raised = true
    ∧ ((download_model "m" mpath tpath netRaise fs0).exitCode = some 1
      ∧ (download_model "m" mpath tpath netRaise fs0).log
          = ["Downloading model...", "Error while downloading model"]
      ∧ (download_model "m" mpath tpath netRaise fs0).requests
          = [ MODEL_URL ]) :=
  ⟨by decide, by decide,
    c7_exception_fatal "m" mpath tpath netRaise fs0 (by decide) (by decide)⟩

/-! Lemmas about running totals. -/

theorem cumFrom_chain :
    ∀ (l : List Nat) (acc : Nat), List.Chain' (· ≤ ·) (cumFrom acc l)
  | [], _ => List.chain'_nil
  | [_], _ => List.chain'_singleton _
  | x :: y :: l, acc => by
      have ih := cumFrom_chain (y :: l) (acc + x)
      simp only [cumFrom] at ih ⊢
      exact List.chain'_cons.mpr ⟨Nat.le_add_right _ _, ih⟩

theorem cumFrom_getLastD :
    ∀ (l : List Nat) (acc : Nat), (cumFrom acc l).getLastD acc = acc + l.sum
  | [], acc => by simp [cumFrom]
  | x :: l, acc => by
      rw [cumFrom, List.getLastD_cons, cumFrom_getLastD l (acc + x)]
      rw [List.sum_cons]
      omega

/-- C8: during a successful download the cumulative byte counts reported to
the progress bar are non-decreasing, and when the response carries a
content-length header whose value the body indeed has (an honest response),
the final report equals that declared total. -/
theorem c8_progress_monotone (url : String) (file_path tmp_name : FilePath)
    (resp : HttpResponse) (fs : FS) (n : Nat)
    (h200 : resp.status = 200)
    (hcl : resp.contentLength = some n)
    (hwf : (resp.chunks.map List.length).sum = n) :
    List.Chain' (· ≤ ·)
      (download_file url file_path tmp_name resp .complete fs).progress
    ∧ (download_file url file_path tmp_name resp
        .complete fs).progress.getLastD 0 = n := by
  simp only [download_file, h200, if_true, if_pos]
  refine ⟨cumFrom_chain _ 0, ?_⟩
  rw [cumSums, cumFrom_getLastD]
  omega

/-- Witness for C8 at the two-chunk 200 response of total size 5. -/
theorem c8_progress_monotone_witness :
    respOk.status = 200
    ∧ respOk.contentLength = some 5
    ∧ (respOk.chunks.map List.length).sum = 5
    ∧ (List.Chain' (· ≤ ·)
        (download_file "u" mpath tpath respOk .complete fs0).progress
      ∧ (download_file "u" mpath tpath respOk
          .complete fs0).progress.getLastD 0 = 5) :=
  ⟨by decide, by decide, by decide,
    c8_progress_monotone "u" mpath tpath respOk fs0 5 (by decide) (by decide)
      (by decide)⟩

/-- C1: an interrupted transfer is invisible at the destination: the partial
body has been written only to the (distinct) temporary file, the exception
propagates, and the destination path still does not exist; only the complete
run, after the full body is received, makes the destination appear — holding
exactly the full body. -/
theorem c1_atomic_commit (url : String) (file_path tmp_name : FilePath)
    (resp : HttpResponse) (k : Nat) (fs : FS)
    (hne : file_path ≠ []) (htmp : tmp_name ≠ file_path)
    (hex : fs.pathExists file_path = false)
    (h200 : resp.status = 200) (hk0 : 0 < k)
    (hk : k < resp.chunks.length) :
    (download_file url file_path tmp_name resp
        (.interruptedAfter k) fs).raised = true
    ∧ (download_file url file_path tmp_name resp
        (.interruptedAfter k) fs).fs.pathExists file_path = false
    ∧ (download_file url file_path tmp_name resp
        (.interruptedAfter k) fs).fs.files tmp_name
        = some ((resp.chunks.take k).flatten)
    ∧ (download_file url file_path tmp_name resp
        .complete fs).fs.files file_path = some resp.chunks.flatten := by
  have h' := hex
  simp only [FS.pathExists, Bool.or_eq_false_iff] at h'
  obtain ⟨hf, hd⟩ := h'
  have hfp : file_path.isPrefixOf file_path.dropLast = false :=
    not_isPrefixOf_dropLast file_path hne
  simp [download_file, h200, FS.moveFile, FS.pathExists, htmp, Ne.symm htmp,
    hf, hd, hfp]

/-- Witness for C1: interruption after 1 of 2 chunks on the empty
filesystem. -/
theorem c1_atomic_commit_witness :
    mpath ≠ ([] : FilePath)
    ∧ tpath ≠ mpath
    ∧ fs0.pathExists mpath = false
    ∧ respOk.status = 200
    ∧ 0 < 1
    ∧ 1 < respOk.chunks.length
    ∧ ((download_file "u" mpath tpath respOk
          (.interruptedAfter 1) fs0).raised = true
      ∧ (download_file "u" mpath tpath respOk
          (.interruptedAfter 1) fs0).fs.pathExists mpath = false
      ∧ (download_file "u" mpath tpath respOk
          (.interruptedAfter 1) fs0).fs.files tpath
          = some ((respOk.chunks.take 1).flatten)
      ∧ (download_file "u" mpath tpath respOk
          .complete fs0).fs.files mpath = some respOk.chunks.flatten) :=
  ⟨by decide, by decide, by decide, by decide, by decide, by decide,
    c1_atomic_commit "u" mpath tpath respOk 1 fs0 (by decide) (by decide)
      (by decide) (by decide) (by decide) (by decide)⟩

/-- C10: on a non-200 status `download_file` returns normally having already
created every missing parent directory of the destination and the (empty)
temporary file, while the destination itself was never created; the
surrounding `download_model` then also completes normally — no process
termination — with the destination still absent. -/
theorem c10_non200_side_effects (url t : String)
    (file_path tmp_name : FilePath) (resp : HttpResponse) (fs : FS)
    (net : String → HttpResponse × FetchOutcome)
    (hst : resp.status ≠ 200) (hne : file_path ≠ [])
    (htmp : tmp_name ≠ file_path)
    (hex : fs.pathExists file_path = false)
    (hnet : net MODEL_URL = (resp, .complete)) :
    (download_file url file_path tmp_name resp .complete fs).raised = false
    ∧ (download_file url file_path tmp_name resp .complete fs).fs.files
        file_path = none
    ∧ (download_file url file_path tmp_name resp .complete fs).fs.files
        tmp_name = some []
    ∧ (∀ q, q.isPrefixOf file_path.dropLast = true →
        (download_file url file_path tmp_name resp .complete fs).fs.dirs q
          = true)
    ∧ (download_model t file_path tmp_name net fs).exitCode = none
    ∧ (download_model t file_path tmp_name net fs).fs.pathExists file_path
        = false := by
  have h' := hex
  simp only [FS.pathExists, Bool.or_eq_false_iff] at h'
  obtain ⟨hf, hd⟩ := h'
  have hfn : fs.files file_path = none := by
    cases hc : fs.files file_path
    · rfl
    · rw [hc] at hf
      simp at hf
  have hfp : file_path.isPrefixOf file_path.dropLast = false :=
    not_isPrefixOf_dropLast file_path hne
  refine ⟨?_, ?_, ?_, ?_, ?_, ?_⟩
  · simp [download_file, hst]
  · simp [download_file, hst, Ne.symm htmp, hfn]
  · simp [download_file, hst]
  · intro q hq
    simp [download_file, hst, hq]
  · simp [download_model, download_file, FS.pathExists, hst, hnet, hf, hd]
  · simp [download_model, download_file, FS.pathExists, hst, hnet, hf, hd,
      Ne.symm htmp, hfn, hfp]

/-- Witness for C10: a 404 on the empty filesystem, checking a concrete
parent directory. -/
theorem c10_non200_side_effects_witness :
    resp404.status ≠ 200
    ∧ mpath ≠ ([] : FilePath)
    ∧ tpath ≠ mpath
    ∧ fs0.pathExists mpath = false
    ∧ ((download_file "u" mpath tpath resp404 .complete fs0).raised = false
      ∧ (download_file "u" mpath tpath resp404 .complete fs0).fs.files mpath
          = none
      ∧ (download_file "u" mpath tpath resp404 .complete fs0).fs.files tpath
          = some []
      ∧ (download_file "u" mpath tpath resp404 .complete fs0).fs.dirs
          ["home", "models"] = true
      ∧ (download_model "m" mpath tpath net404 fs0).exitCode = none
      ∧ (download_model "m" mpath tpath net404 fs0).fs.pathExists mpath
          = false) :=
  ⟨by decide, by decide, by decide, by decide,
    match c10_non200_side_effects "u" "m" mpath tpath resp404 fs0 net404
      (by decide) (by decide) (by decide) (by decide) rfl with
    | ⟨a, b, c, d, e, f⟩ =>
        ⟨a, b, c, d ["home", "models"] (by decide), e, f⟩⟩

/-! Deployer fixtures. -/

/-- A concrete target (serving) directory. -/
def statp : FilePath := ["srv", "static"]

/-- A concrete install-local bundle directory. -/
def distp : FilePath := ["pkg", "frontend-dist"]

/-- A filesystem with a stale file in the target and no bundle. -/
def fsC5 : FS :=
  { files := fun q => if q = statp ++ ["old.txt"] then some [9] else none,
    dirs := fun q => q.isPrefixOf statp }

/-- A filesystem with a stale file in the target and a one-file bundle. -/
def fsC6 : FS :=
  { files := fun q =>
      if q = distp ++ ["app.js"] then some [1, 2]
      else if q = statp ++ ["old.txt"] then some [9] else none,
    dirs := fun q => q.isPrefixOf distp || q.isPrefixOf statp }

/-- C5: when no bundle source exists, deploy returns (it is a total
function of the state) and the target directory afterwards exists and
contains exactly one file, the placeholder page — whatever the target held
before.  The consistency hypothesis `hconsistent` says only that on the
input filesystem a file strictly inside the target implies the target
itself exists, which every real filesystem satisfies. -/
theorem c5_degraded_fallback (static_folder dist_folder : FilePath) (fs : FS)
    (hdist : fs.pathExists dist_folder = false)
    (hfile : fs.files static_folder = none)
    (hconsistent : ∀ q, static_folder.isPrefixOf q = true →
      q ≠ static_folder → (fs.files q).isSome = true →
      fs.pathExists static_folder = true) :
    (extract_frontend_dist static_folder dist_folder fs).files
        (static_folder ++ ["index.html"]) = some placeholderBytes
    ∧ (∀ q, static_folder.isPrefixOf q = true → q ≠ static_folder →
        q ≠ static_folder ++ ["index.html"] →
        (extract_frontend_dist static_folder dist_folder fs).files q = none)
    ∧ (extract_frontend_dist static_folder dist_folder fs).dirs static_folder
        = true
    ∧ (extract_frontend_dist static_folder dist_folder fs).files
        static_folder = none := by
  have hdd := hdist
  simp only [FS.pathExists, Bool.or_eq_false_iff] at hdd
  obtain ⟨hdf, hddir⟩ := hdd
  have hidx : static_folder ++ ["index.html"] ≠ static_folder :=
    append_ne_self static_folder ["index.html"] (by simp)
  cases hse : fs.pathExists static_folder with
  | true =>
      have h1 : (fs.rmtree static_folder).pathExists dist_folder = false := by
        simp only [FS.pathExists, FS.rmtree_files, FS.rmtree_dirs]
        split_ifs <;> simp_all
      have h2 : (fs.rmtree static_folder).pathExists static_folder
          = false := by
        simp [FS.pathExists, isPrefixOf_self, hfile]
      refine ⟨?_, ?_, ?_, ?_⟩ <;>
        simp only [extract_frontend_dist, hse, if_true, h1, h2,
          Bool.false_eq_true, if_false]
      · simp
      · intro q hq hq1 hq2
        simp [hq2, hq, hq1]
      · simp [isPrefixOf_self]
      · simp [hidx, hfile, isPrefixOf_self]
  | false =>
      have h2 : fs.pathExists static_folder = false := hse
      refine ⟨?_, ?_, ?_, ?_⟩ <;>
        simp only [extract_frontend_dist, hse, Bool.false_eq_true, if_false,
          hdist, h2]
      · simp
      · intro q hq hq1 hq2
        have : fs.files q = none := by
          cases hc : fs.files q with
          | none => rfl
          | some c =>
              have := hconsistent q hq hq1 (by simp [hc])
              rw [this] at hse
              cases hse
        simp [hq2, this]
      · simp [isPrefixOf_self]
      · simp [hidx, hfile]

/-- Witness for C5: target with one stale file, no bundle anywhere;
afterwards the placeholder is the single file and the stale file is gone. -/
theorem c5_degraded_fallback_witness :
    fsC5.pathExists distp = false
    ∧ fsC5.files statp = none
    ∧ ((extract_frontend_dist statp distp fsC5).files
          (statp ++ ["index.html"]) = some placeholderBytes
      ∧ (extract_frontend_dist statp distp fsC5).files (statp ++ ["old.txt"])
          = none
      ∧ (extract_frontend_dist statp distp fsC5).dirs statp = true
      ∧ (extract_frontend_dist statp distp fsC5).files statp = none) :=
  ⟨by decide, by decide,
    match c5_degraded_fallback statp distp fsC5 (by decide) (by decide)
      (by intro q h1 h2 h3; decide) with
    | ⟨a, b, c, d⟩ =>
        ⟨a, b (statp ++ ["old.txt"]) (by decide) (by decide) (by decide),
          c, d⟩⟩

/-- C6: when a valid bundle source exists (at a location incomparable with
the target, as in the real layout), deploy leaves the target directory
holding exactly the bundle's tree: every path inside the target maps to the
bundle's file at the corresponding relative path — so stale files are gone,
not merged — and the target directory itself exists. -/
theorem c6_deploy_refresh (static_folder dist_folder : FilePath) (fs : FS)
    (h1 : static_folder.isPrefixOf dist_folder = false)
    (h2 : dist_folder.isPrefixOf static_folder = false)
    (hdist : fs.pathExists dist_folder = true)
    (hfile : fs.files static_folder = none) :
    (∀ rest : FilePath, rest ≠ [] →
      (extract_frontend_dist static_folder dist_folder fs).files
          (static_folder ++ rest) = fs.files (dist_folder ++ rest))
    ∧ (extract_frontend_dist static_folder dist_folder fs).files
        static_folder = none
    ∧ (extract_frontend_dist static_folder dist_folder fs).dirs static_folder
        = true := by
  have hincomp : ∀ rest : FilePath,
      static_folder.isPrefixOf (dist_folder ++ rest) = false :=
    fun rest => not_isPrefixOf_append_of_incomparable _ _ rest h1 h2
  cases hse : fs.pathExists static_folder with
  | true =>
      have hd1 : (fs.rmtree static_folder).pathExists dist_folder = true := by
        have := hincomp []
        rw [List.append_nil] at this
        simp [FS.pathExists, this]
        simpa [FS.pathExists] using hdist
      have hd2 : ((((fs.rmtree static_folder).mkdirP
          static_folder.dropLast).copytree dist_folder
            static_folder).pathExists static_folder) = true := by
        simp [FS.pathExists, isPrefixOf_self]
      refine ⟨?_, ?_, ?_⟩ <;>
        simp only [extract_frontend_dist, hse, if_true, hd1, hd2]
      · intro rest hrest
        simp [isPrefixOf_append, append_ne_self _ _ hrest, List.drop_left,
          hincomp rest]
      · simp [hfile]
      · simp [isPrefixOf_self]
  | false =>
      have hd2 : ((fs.mkdirP static_folder.dropLast).copytree dist_folder
          static_folder).pathExists static_folder = true := by
        simp [FS.pathExists, isPrefixOf_self]
      refine ⟨?_, ?_, ?_⟩ <;>
        simp only [extract_frontend_dist, hse, Bool.false_eq_true, if_false,
          hdist, if_true, hd2]
      · intro rest hrest
        simp [isPrefixOf_append, append_ne_self _ _ hrest, List.drop_left]
      · simp [hfile]
      · simp [isPrefixOf_self]

/-- Witness for C6: target with one stale file, bundle with one file
app.js; afterwards the target holds exactly app.js and the stale file is
gone. -/
theorem c6_deploy_refresh_witness :
    statp.isPrefixOf distp = false
    ∧ distp.isPrefixOf statp = false
    ∧ fsC6.pathExists distp = true
    ∧ fsC6.files statp = none
    ∧ (extract_frontend_dist statp distp fsC6).files (statp ++ ["app.js"])
        = some [1, 2]
    ∧ (extract_frontend_dist statp distp fsC6).files (statp ++ ["old.txt"])
        = none
    ∧ (extract_frontend_dist statp distp fsC6).files statp = none
    ∧ (extract_frontend_dist statp distp fsC6).dirs statp = true :=
  match c6_deploy_refresh statp distp fsC6 (by decide) (by decide)
    (by decide) (by decide) with
  | ⟨a, b, c⟩ =>
      ⟨by decide, by decide, by decide, by decide,
        (a ["app.js"] (by decide)).trans (by decide),
        (a ["old.txt"] (by decide)).trans (by decide), b, c⟩

end Pautobot
